import Mathlib

/-!
Verification development for the walgot terminal client.

The repository holds two generations of the same program:
* `src/main.go` (package `main`, version 0.0.1): the whole client in one file;
* `src/unnamed/part_000` (package `tui`): the later model/dispatcher file with
  the on-disk cache, the dialog state and the reworked synchronizer.

Both are embedded below.  External effects (the wallabag HTTP gateway, the
filesystem, gob encoding) are passed in as explicit environment values, so
every definition is executable; each definition's doc comment names the source
lines it mirrors.
-/

/-- One wallabag entry (`wallabago.Item`), restricted to the fields the client
reads: numeric `ID`, title, domain name, content, the integer flags
`IsArchived` / `IsStarred` (the Go library exposes them as `int`), and the two
timestamps.  Timestamps are carried as their already-formatted display strings,
since the client only ever renders them. -/
structure Item where
  ID : Int
  Title : String
  DomainName : String
  Content : String
  IsArchived : Int
  IsStarred : Int
  CreatedAt : String
  UpdatedAt : String
deriving DecidableEq

/-- Convenient concrete entry for witnesses and counterexamples. -/
def mkTestItem (id archived starred : Int) : Item :=
  { ID := id, Title := "t", DomainName := "d", Content := "c"
  , IsArchived := archived, IsStarred := starred
  , CreatedAt := "2022-01-01", UpdatedAt := "2022-01-01" }

/-- The bubbletea messages the embedded code produces or consumes
(`wallabagoResponseErrorMsg`, `wallabagoResponseEntitiesMsg`,
`wallabagoResponseNbEntitiesMsg`, `wallabagoResponseEntityUpdateMsg`,
`wallabagoResponseClearMsg`, `walgotSelectRowMsg`, `tea.KeyMsg`,
`spinner.TickMsg`).  Error messages carry only their display text; the wrapped
Go `error` value is not inspected by any embedded code path. -/
inductive TeaMsg where
  | errorMsg (message : String)
  | entitiesMsg (entries : List Item)
  | nbEntitiesMsg (n : Int)
  | entityUpdateMsg (entry : Item)
  | clearMsg (b : Bool)
  | selectRowMsg (id : Int)
  | keyMsg (key : String)
  | spinnerTickMsg
deriving DecidableEq

/-- True exactly on `wallabagoResponseErrorMsg` values. -/
def isErrorMsg : TeaMsg → Bool
  | .errorMsg _ => true
  | _ => false

/-- Page numbers `s, s+1, ..., s+r-1`: the values taken by the loop counter
`for i := 1; i < nbCalls+1; i++` when started at `s` for `r` iterations. -/
def pageList : Nat → Nat → List Nat
  | _, 0 => []
  | s, r + 1 => s :: pageList (s + 1) r

/-- Concatenation, in page order, of the items of pages `s, ..., s+r-1`:
the value accumulated by `entries = append(entries, r.Embedded.Items...)`. -/
def concatPages (pItems : Nat → List Item) : Nat → Nat → List Item
  | _, 0 => []
  | s, r + 1 => pItems s ++ concatPages pItems (s + 1) r

/-- Ceiling division `⌈n / p⌉` (the page count the spec prescribes). -/
def ceilDiv (n p : Nat) : Nat := (n + p - 1) / p

/-- The page-count computation of `src/main.go`'s synchronizer.  It mirrors
the inline code of lines 314-320 (`nbCalls := 1; if nbArticles > limit {
nbCalls = nbArticles / limit; if float64(nbCalls) <
float64(nbArticles)/float64(limit) { nbCalls++ } }`).  The `float64`
comparison is modelled by the exact integer comparison it implements for all
realistic sizes.  The tui synchronizer's helper of the same name is absent
from `src/` and is modelled separately, from the spec (`Tui.getRequiredNbAPICalls`). -/
def getRequiredNbAPICalls (nbArticles limitArticleByAPICall : Nat) : Nat :=
  if nbArticles > limitArticleByAPICall then
    if (nbArticles / limitArticleByAPICall) * limitArticleByAPICall < nbArticles then
      nbArticles / limitArticleByAPICall + 1
    else
      nbArticles / limitArticleByAPICall
  else 1

namespace Tui

/-- Dialog box state (`walgotDialog`, part_000 lines 56-61); the embedded
text-input widget is an external sub-model and is omitted. -/
structure walgotDialog where
  Message : String
  ShowInput : Bool
  Action : String
deriving DecidableEq

/-- The tui `model` (part_000 lines 70-90), restricted to the fields the
dispatcher and the synchronizer read or write.  The bubbletea sub-models
(table, viewport, spinner), the terminal size, the filter/sort options and the
debug flag are external widgets or configuration the embedded claims never
inspect. -/
structure model where
  Dialog : walgotDialog
  UpdateMessage : String
  Ready : Bool
  Reloading : Bool
  CurrentView : String
  Entries : List Item
  SelectedID : Int
  TotalEntriesOnServer : Int
deriving DecidableEq

/-- Which branch of `model.Update` (part_000 lines 333-384) ends the tick:
either one of the four view-specific updaters (`updateDialogView`,
`updateHelpView`, `updateEntryView`, `updateListView`, whose bodies live
outside this file's scope and are abstracted to their tags), or one of the
three early returns (`tea.Quit`, the help-toggle return, and the
entity-update return that schedules the delayed clear tick). -/
inductive Handler where
  | quit
  | helpToggle
  | entityUpdateTick
  | dialogView
  | helpView
  | detailView
  | listView
deriving DecidableEq

/-- True exactly on the four view-specific updater tags. -/
def isViewUpdater : Handler → Bool
  | .dialogView => true
  | .helpView => true
  | .detailView => true
  | .listView => true
  | _ => false

/-- Modelled from the spec: `updatedEntryInModel` (called at part_000 line 359
but defined outside `src/`) "replaces the matching Entry in place (by ID)". -/
def updatedEntryInModel (m : model) (e : Item) : model :=
  { m with Entries := m.Entries.map fun it => if it.ID = e.ID then e else it }

/-- The view dispatch at the tail of `model.Update` (part_000 lines 372-383):
`if m.Dialog.Message != "" { updateDialogView } else if m.CurrentView == "help"
{ updateHelpView }; if m.SelectedID > 0 { updateEntryView }; updateListView`.
The sub-updaters receive the model unchanged; they are abstracted to tags. -/
def dispatch (m : model) : model × Handler :=
  if m.Dialog.Message ≠ "" then (m, .dialogView)
  else if m.CurrentView = "help" then (m, .helpView)
  else if m.SelectedID > 0 then (m, .detailView)
  else (m, .listView)

/-- `model.Update` (part_000 lines 333-384).  In source order: the key block
(`ctrl+c` quits; `?` while not reloading switches to the help view and
returns), then the priority type-switch (an error message clears `Reloading`
and fills `Dialog.Message`; an entity-update message patches the entry and
returns with the delayed clear tick; a true clear message blanks
`UpdateMessage`; a row-selection message stores `SelectedID`), then the view
dispatch above. -/
def updateModel (m : model) (msg : TeaMsg) : model × Handler :=
  match msg with
  | .keyMsg k =>
      if k = "ctrl+c" then (m, .quit)
      else if k = "?" ∧ m.Reloading = false then
        ({ m with CurrentView := "help" }, .helpToggle)
      else dispatch m
  | .errorMsg s =>
      dispatch { m with Reloading := false, Dialog := { m.Dialog with Message := s } }
  | .entityUpdateMsg e => (updatedEntryInModel m e, .entityUpdateTick)
  | .clearMsg b => dispatch (if b then { m with UpdateMessage := "" } else m)
  | .selectRowMsg v => dispatch { m with SelectedID := v }
  | _ => dispatch m

/-- Result of `os.Stat` on the cache file, reduced to the permission bits the
gate inspects.  Part_000 line 179 reads `info.Mode()&1<<2`; in Go `&` and `<<`
share precedence level 5 and associate left, so this parses as
`(info.Mode() & 1) << 2` — the gate tests the other-execute bit (`mode & 1`),
not the other-read bit its adjacent comment describes. -/
structure FileInfo where
  mode : Nat
deriving DecidableEq

/-- Environment of one run of `requestWallabagEntries` (part_000 173-249):
* `statResult`: `some info` when `os.Stat(cacheFilename)` returns `err == nil`;
* `readResult`: `none` when `os.ReadFile` itself fails (silently ignored by the
  source), `some (.error e)` when the read succeeds but the gob decode fails,
  `some (.ok entries)` when read and decode both succeed;
* `pages limit page sortField sortOrder`: the outcome of
  `api.GetEntries(limit, page, sortField, sortOrder)`, reduced to its
  `r.Embedded.Items`;
* `openResult`: outcome of `os.OpenFile(cacheFilename, O_CREATE|O_TRUNC|O_WRONLY, 0600)`;
* `encodeResult`: outcome of `gob.NewEncoder(file).Encode(entries)`. -/
structure SyncEnv where
  statResult : Option FileInfo
  readResult : Option (Except String (List Item))
  pages : Nat → Nat → String → String → Except String (List Item)
  openResult : Except String Unit
  encodeResult : Except String Unit

/-- Outcome of the synchronizer command, instrumented with its externally
visible effects: the single message the `tea.Cmd` produces, the page numbers
passed to `api.GetEntries` in order, whether `os.OpenFile` on the cache path
was reached (which truncates the file), and whether the encode into it
succeeded. -/
structure SyncResult where
  msg : TeaMsg
  pagesRequested : List Nat
  cacheOpened : Bool
  cacheWritten : Bool
deriving DecidableEq

/-- The cache phase of `requestWallabagEntries` (part_000 lines 177-201):
if the cache file exists and `info.Mode()&1<<2` is non-zero — which by Go's
precedence rules is `(mode & 1) << 2`, non-zero exactly when the
other-execute bit is set — fail with the security error; otherwise, a failed
`os.ReadFile` is ignored, a failed gob decode fails with the load error, and
a successful decode yields the cached entries. -/
def cachePhase (env : SyncEnv) : Except String (List Item) :=
  match env.statResult with
  | some info =>
      if (info.mode &&& 1) <<< 2 ≠ 0 then
        .error "Error:\n couldn't read cache file for security reasons"
      else
        match env.readResult with
        | some (.error _) => .error "Error:\n couldn't load the entries from cache"
        | some (.ok entries) => .ok entries
        | none => .ok []
  | none => .ok []

/-- The paginated fetch loop (part_000 lines 213-224): pages are requested
sequentially starting at 1; the first failing page aborts with its error,
otherwise the items are appended in arrival order. -/
def fetchFrom (pages : Nat → Except String (List Item)) :
    Nat → Nat → List Item → (List Nat × Except String (List Item))
  | _, 0, acc => ([], .ok acc)
  | i, r + 1, acc =>
      match pages i with
      | .error e => ([i], .error e)
      | .ok items =>
          let out := fetchFrom pages (i + 1) r (acc ++ items)
          (i :: out.1, out.2)

/-- Modelled from the spec: the tui synchronizer's `getRequiredNbAPICalls`,
called at part_000 line 208 but defined outside `src/`, per the spec's words
"given the count `N` and a fixed page size `P`, compute
`calls = ceil(N / P)`". -/
def getRequiredNbAPICalls (nbArticles nbEntriesPerAPICall : Nat) : Nat :=
  ceilDiv nbArticles nbEntriesPerAPICall

/-- `requestWallabagEntries` (part_000 lines 173-249), flattened from the
returned `tea.Cmd` to the one message it produces.  After the cache phase:
cached non-empty entries satisfy the sync immediately; otherwise
`Tui.getRequiredNbAPICalls` (spec-modelled, see above) pages are fetched, a
page failure aborts with the fetch error, then the cache file is opened
(`O_CREATE|O_TRUNC|O_WRONLY`, mode 0600) and the entries are gob-encoded
into it — open or encode failure yields an error message and entities are
not delivered. -/
def requestWallabagEntries (env : SyncEnv)
    (nbArticles nbEntriesPerAPICall : Nat) (sortField sortOrder : String) :
    SyncResult :=
  match cachePhase env with
  | .error m => ⟨.errorMsg m, [], false, false⟩
  | .ok entries =>
      if entries.length > 0 then ⟨.entitiesMsg entries, [], false, false⟩
      else
        let limitArticleByAPICall := nbEntriesPerAPICall
        let nbCalls := getRequiredNbAPICalls nbArticles limitArticleByAPICall
        let out := fetchFrom
          (fun i => env.pages limitArticleByAPICall i sortField sortOrder) 1 nbCalls []
        match out.2 with
        | .error _ =>
            ⟨.errorMsg "Error:\n couldn't retrieve the entries from wallabag API",
              out.1, false, false⟩
        | .ok fetched =>
            match env.openResult with
            | .error e =>
                ⟨.errorMsg ("Error:\n couldn't open file to cache Wallabag entries: /tmp/walgot-cache.dat: " ++ e),
                  out.1, true, false⟩
            | .ok _ =>
                match env.encodeResult with
                | .error e =>
                    ⟨.errorMsg ("Error:\n couldn't decode cache file to Wallabag entries slice: " ++ e),
                      out.1, true, false⟩
                | .ok _ => ⟨.entitiesMsg fetched, out.1, true, true⟩

/-- `requestWallabagNbEntries` (part_000 lines 158-170): a failed count request
becomes the count error message, a successful one the count message. -/
def requestWallabagNbEntries (apiResult : Except String Int) : TeaMsg :=
  match apiResult with
  | .error _ =>
      .errorMsg "Error:\n couldn't retrieve the total number of entries from wallabag API"
  | .ok n => .nbEntitiesMsg n

end Tui

namespace Main

/-- What running `requestWallabagNbEntries` of `src/main.go` does to the
process: either the process is terminated by `os.Exit(code)` or an in-process
message is produced. -/
inductive ProcessOutcome where
  | exited (code : Nat)
  | msg (m : TeaMsg)
deriving DecidableEq

/-- `requestWallabagNbEntries` (src/main.go lines 289-304): when
`wallabago.GetNumberOfTotalArticles` fails, the function prints an error and
calls `os.Exit(1)`; otherwise it returns the count message. -/
def requestWallabagNbEntries (apiResult : Except String Int) : ProcessOutcome :=
  match apiResult with
  | .error _ => .exited 1
  | .ok n => .msg (.nbEntitiesMsg n)

/-- The fetch loop of `requestWallabagEntries` in `src/main.go` (lines
328-355), instrumented with the page numbers passed to `wallabago.GetEntries`
in order: a failed call is only logged; the loop then appends
`r.Embedded.Items` of the zero-valued response (that is, nothing) and
continues with the next page — every page number up to `nbCalls` is
requested either way. -/
def fetchLoop (pages : Nat → Nat → String → String → Except String (List Item))
    (limit : Nat) : Nat → Nat → List Item → (List Nat × List Item)
  | _, 0, acc => ([], acc)
  | i, r + 1, acc =>
      match pages limit i "updated" "desc" with
      | .error _ =>
          let out := fetchLoop pages limit (i + 1) r acc
          (i :: out.1, out.2)
      | .ok items =>
          let out := fetchLoop pages limit (i + 1) r (acc ++ items)
          (i :: out.1, out.2)

/-- `requestWallabagEntries` (src/main.go lines 307-363), flattened from the
returned `tea.Cmd` to the one message it produces.  The page size is the
hard-coded `articleByAPICall = 55`, the sort is the hard-coded
`"updated"`/`"desc"`, the call count is the inline computation embodied in
`getRequiredNbAPICalls`, and the accumulated entries are always delivered as a
success message — there is no error return and no cache. -/
def requestWallabagEntries
    (pages : Nat → Nat → String → String → Except String (List Item))
    (nbArticles : Nat) : TeaMsg :=
  .entitiesMsg (fetchLoop pages 55 1 (getRequiredNbAPICalls nbArticles 55) []).2

/-- The page numbers `src/main.go`'s synchronizer passes to
`wallabago.GetEntries` during one run, in order. -/
def pagesRequested
    (pages : Nat → Nat → String → String → Except String (List Item))
    (nbArticles : Nat) : List Nat :=
  (fetchLoop pages 55 1 (getRequiredNbAPICalls nbArticles 55) []).1

/-- Table filter flags (`walgotTableFilters`, src/main.go lines 53-57). -/
structure walgotTableFilters where
  Archived : Bool
  Starred : Bool
  Unread : Bool
deriving DecidableEq

/-- One row of the list table (src/main.go lines 635-642).  The source row is
the string list `[Itoa(ID), title, domain, star, check, date]`; the lipgloss
bold rendering of unarchived titles is abstracted to the `titleBold` flag. -/
structure TableRow where
  id : String
  title : String
  titleBold : Bool
  domain : String
  starredMark : String
  archivedMark : String
  updated : String
deriving DecidableEq

/-- Row construction of `getTableRows` (src/main.go lines 623-642) for an
entry that passed the filters. -/
def mkRow (it : Item) : TableRow :=
  { id := toString it.ID
  , title := it.Title
  , titleBold := !(it.IsArchived == 1)
  , domain := it.DomainName
  , starredMark := if it.IsStarred == 1 then "*" else " "
  , archivedMark := if it.IsArchived == 1 then "v" else " "
  , updated := it.UpdatedAt }

/-- `getTableRows` (src/main.go lines 607-647): the loop keeps the input order
and `continue`-skips an entry when the unread filter is on and the entry is
archived, when the starred filter is on and the entry is not starred, or when
the archived filter is on and the entry is not archived. -/
def getTableRows : List Item → walgotTableFilters → List TableRow
  | [], _ => []
  | it :: rest, filters =>
      if filters.Unread && it.IsArchived != 0 then getTableRows rest filters
      else if filters.Starred && it.IsStarred != 1 then getTableRows rest filters
      else if filters.Archived && it.IsArchived != 1 then getTableRows rest filters
      else mkRow it :: getTableRows rest filters

/-- Spec-side predicate for claim C8: the conjunction of the active filters
(unread demands `archived = 0`, starred demands `starred = 1`, archived
demands `archived = 1`), composed with logical AND. -/
def passesActiveFilters (filters : walgotTableFilters) (it : Item) : Bool :=
  (!filters.Unread || it.IsArchived == 0)
    && (!filters.Starred || it.IsStarred == 1)
    && (!filters.Archived || it.IsArchived == 1)

/-- `listViewFiltersUpdate` (src/main.go lines 726-745), restricted to its
effect on the filter flags (the trailing `SetRows` recomputation is
`getTableRows` above).  The three `if` blocks run in source order. -/
def listViewFiltersUpdate (msg : String) (f : walgotTableFilters) : walgotTableFilters :=
  let f1 :=
    if msg = "u" then
      let t := { f with Unread := !f.Unread }
      if t.Unread then { t with Archived := false } else t
    else f
  let f2 := if msg = "s" then { f1 with Starred := !f1.Starred } else f1
  let f3 :=
    if msg = "a" then
      let t := { f2 with Archived := !f2.Archived }
      if t.Archived then { t with Unread := false } else t
    else f2
  f3

end Main

/-! Concrete fixtures for counterexamples and witnesses. -/

/-- Cache file with the other-users read bit set (mode `0o644`) — and the
other-execute bit clear, so the program's gate passes. -/
def envWorldReadable : Tui.SyncEnv :=
  { statResult := some ⟨0o644⟩
  , readResult := some (.ok [mkTestItem 7 0 0])
  , pages := fun _ _ _ _ => .ok []
  , openResult := .ok ()
  , encodeResult := .ok () }

/-- Cache file with owner-only read permission but the other-execute bit set
(mode `0o601`): the only kind of mode that makes the program's gate fire. -/
def envWorldExecutable : Tui.SyncEnv :=
  { statResult := some ⟨0o601⟩
  , readResult := some (.ok [mkTestItem 7 0 0])
  , pages := fun _ _ _ _ => .ok []
  , openResult := .ok ()
  , encodeResult := .ok () }

/-- No cache file; page 2 fails, every other page succeeds with no items. -/
def envPage2Fails : Tui.SyncEnv :=
  { statResult := none
  , readResult := none
  , pages := fun _ i _ _ => if i = 2 then .error "boom" else .ok []
  , openResult := .ok ()
  , encodeResult := .ok () }

/-- No cache file; every page succeeds with no items; open and encode succeed. -/
def envAllOk : Tui.SyncEnv :=
  { statResult := none
  , readResult := none
  , pages := fun _ _ _ _ => .ok []
  , openResult := .ok ()
  , encodeResult := .ok () }

/-- No cache file; the single page succeeds with one item, but opening the
cache file for writing fails. -/
def envOpenFails : Tui.SyncEnv :=
  { statResult := none
  , readResult := none
  , pages := fun _ _ _ _ => .ok [mkTestItem 7 0 0]
  , openResult := .error "disk full"
  , encodeResult := .ok () }

/-- Cache file with safe permissions (mode `0o600`) whose contents fail to
gob-decode. -/
def envCorruptCache : Tui.SyncEnv :=
  { statResult := some ⟨0o600⟩
  , readResult := some (.error "gob: corrupt")
  , pages := fun _ _ _ _ => .ok [mkTestItem 7 0 0]
  , openResult := .ok ()
  , encodeResult := .ok () }

/-- Page environment for the old `src/main.go` synchronizer in which page 2
fails and pages 1 and 3 deliver one item each. -/
def mainPagesPage2Fails : Nat → Nat → String → String → Except String (List Item) :=
  fun _ i _ _ =>
    if i = 2 then .error "boom"
    else .ok [mkTestItem (Int.ofNat i) 0 0]

/-- A tui model showing a dialog over a selected entry, not reloading. -/
def modelDialogAndSelection : Tui.model :=
  { Dialog := { Message := "confirm?", ShowInput := false, Action := "" }
  , UpdateMessage := ""
  , Ready := true
  , Reloading := false
  , CurrentView := "list"
  , Entries := []
  , SelectedID := 5
  , TotalEntriesOnServer := 9 }

/-- A tui model with no dialog, list view, nothing selected, empty entries. -/
def modelPlainList : Tui.model :=
  { Dialog := { Message := "", ShowInput := false, Action := "" }
  , UpdateMessage := ""
  , Ready := true
  , Reloading := false
  , CurrentView := "list"
  , Entries := []
  , SelectedID := 0
  , TotalEntriesOnServer := 0 }

/-- Entry 1 of the spec's filter example: `{id:1, archived:0, starred:1}`. -/
def itemE1 : Item := mkTestItem 1 0 1

/-- Entry 2 of the spec's filter example: `{id:2, archived:1, starred:0}`. -/
def itemE2 : Item := mkTestItem 2 1 0

/-- Two entries identical in every field except `ID`, listed with the larger
identifier first; every sort key ties on them. -/
def itemTieFirst : Item := mkTestItem 2 0 0

/-- See `itemTieFirst`. -/
def itemTieSecond : Item := mkTestItem 1 0 0

/-- Filter state with only the unread filter active. -/
def filterUnreadOnly : Main.walgotTableFilters :=
  { Archived := false, Starred := false, Unread := true }

/-- Filter state with only the starred filter active. -/
def filterStarredOnly : Main.walgotTableFilters :=
  { Archived := false, Starred := true, Unread := false }

/-- Filter state with only the archived filter active. -/
def filterArchivedOnly : Main.walgotTableFilters :=
  { Archived := true, Starred := false, Unread := false }

/-- Filter state with no filter active. -/
def filterNone : Main.walgotTableFilters :=
  { Archived := false, Starred := false, Unread := false }

/-! Helper lemmas. -/

/-- The view dispatch leaves the model untouched, always picks one of the four
view updaters, and picks each exactly under its documented condition. -/
theorem Tui.dispatch_spec (m : Tui.model) :
    (Tui.dispatch m).1 = m
    ∧ Tui.isViewUpdater (Tui.dispatch m).2 = true
    ∧ ((Tui.dispatch m).2 = .dialogView ↔ m.Dialog.Message ≠ "")
    ∧ ((Tui.dispatch m).2 = .helpView ↔ m.Dialog.Message = "" ∧ m.CurrentView = "help")
    ∧ ((Tui.dispatch m).2 = .detailView ↔
        m.Dialog.Message = "" ∧ m.CurrentView ≠ "help" ∧ m.SelectedID > 0)
    ∧ ((Tui.dispatch m).2 = .listView ↔
        m.Dialog.Message = "" ∧ m.CurrentView ≠ "help" ∧ ¬ m.SelectedID > 0) := by
  unfold Tui.dispatch
  split_ifs with h1 h2 h3 <;> simp_all [Tui.isViewUpdater]

/-- An error message never changes the entry set: the dispatcher copies
`Entries` through while filling the dialog. -/
theorem Tui.updateModel_errorMsg_entries (m : Tui.model) (s : String) :
    (Tui.updateModel m (.errorMsg s)).1.Entries = m.Entries := by
  simp only [Tui.updateModel, Tui.dispatch]
  split_ifs <;> rfl

/-- Value of `ceilDiv` in terms of division and remainder. -/
theorem ceilDiv_val (n p : Nat) (hp : 0 < p) (hn : 0 < n) :
    ceilDiv n p = if n % p = 0 then n / p else n / p + 1 := by
  have hqr := Nat.div_add_mod n p
  have hrlt := Nat.mod_lt n hp
  unfold ceilDiv
  by_cases h0 : n % p = 0
  · simp only [h0, if_pos]
    have he : n + p - 1 = p * (n / p) + (p - 1) := by omega
    rw [he, Nat.mul_add_div hp]
    have hz : (p - 1) / p = 0 := Nat.div_eq_of_lt (by omega)
    omega
  · simp only [h0, if_neg, ite_false]
    have hmul : p * (n / p + 1) = p * (n / p) + p := by ring
    have he : n + p - 1 = p * (n / p + 1) + (n % p - 1) := by omega
    rw [he, Nat.mul_add_div hp]
    have hz : (n % p - 1) / p = 0 := Nat.div_eq_of_lt (by omega)
    omega

/-- For a positive article count the source's call-count computation agrees
with ceiling division. -/
theorem getRequiredNbAPICalls_eq_ceilDiv (n p : Nat) (hp : 0 < p) (hn : 0 < n) :
    getRequiredNbAPICalls n p = ceilDiv n p := by
  have hqr := Nat.div_add_mod n p
  have hrlt := Nat.mod_lt n hp
  rw [ceilDiv_val n p hp hn]
  unfold getRequiredNbAPICalls
  rw [Nat.mul_comm (n / p) p]
  by_cases hnp : n > p
  · simp only [hnp, if_pos]
    by_cases hlt : p * (n / p) < n
    · simp only [hlt, if_pos]
      have hne : ¬ n % p = 0 := by omega
      simp [hne]
    · simp only [hlt, if_neg, ite_false]
      have heq : n % p = 0 := by omega
      simp [heq]
  · simp only [hnp, if_neg, ite_false]
    have hle : n ≤ p := by omega
    rcases Nat.lt_or_ge n p with hlt | hge
    · have hq : n / p = 0 := Nat.div_eq_of_lt hlt
      have hr : n % p = n := Nat.mod_eq_of_lt hlt
      have hne : ¬ n % p = 0 := by omega
      simp [hq, hne]
    · have hnp2 : n = p := by omega
      subst hnp2
      simp [Nat.div_self hp, Nat.mod_self]

/-- When every page succeeds, the fetch loop requests exactly the pages
`i, ..., i+r-1` in order and accumulates their items in arrival order. -/
theorem Tui.fetchFrom_ok (pages : Nat → Except String (List Item))
    (pItems : Nat → List Item) (h : ∀ j, pages j = .ok (pItems j)) :
    ∀ (r i : Nat) (acc : List Item),
      Tui.fetchFrom pages i r acc = (pageList i r, .ok (acc ++ concatPages pItems i r)) := by
  intro r
  induction r with
  | zero => intro i acc; simp [Tui.fetchFrom, pageList, concatPages]
  | succ r ih =>
      intro i acc
      simp only [Tui.fetchFrom, h i, pageList, concatPages, ih (i + 1) (acc ++ pItems i)]
      simp [List.append_assoc]

/-- When the pages before `i + k` succeed and page `i + k` fails, the fetch
loop requests exactly the pages `i, ..., i+k` and aborts with the error. -/
theorem Tui.fetchFrom_err (pages : Nat → Except String (List Item)) (e : String) :
    ∀ (k r i : Nat) (acc : List Item), k < r →
      (∀ j, j < k → ∃ its, pages (i + j) = .ok its) →
      pages (i + k) = .error e →
      Tui.fetchFrom pages i r acc = (pageList i (k + 1), .error e) := by
  intro k
  induction k with
  | zero =>
      intro r i acc hkr _ herr
      obtain ⟨r', rfl⟩ : ∃ r', r = r' + 1 := ⟨r - 1, by omega⟩
      simp only [Nat.add_zero] at herr
      simp [Tui.fetchFrom, herr, pageList]
  | succ k ih =>
      intro r i acc hkr hok herr
      obtain ⟨r', rfl⟩ : ∃ r', r = r' + 1 := ⟨r - 1, by omega⟩
      obtain ⟨its, hits⟩ := hok 0 (by omega)
      simp only [Nat.add_zero] at hits
      have hok' : ∀ j, j < k → ∃ its, pages (i + 1 + j) = .ok its := by
        intro j hj
        obtain ⟨its', hits'⟩ := hok (j + 1) (by omega)
        exact ⟨its', by rw [show i + 1 + j = i + (j + 1) by omega]; exact hits'⟩
      have herr' : pages (i + 1 + k) = .error e := by
        rw [show i + 1 + k = i + (k + 1) by omega]; exact herr
      simp only [Tui.fetchFrom, hits]
      rw [ih r' (i + 1) (acc ++ its) (by omega) hok' herr']
      simp [pageList]

/-- The old synchronizer's loop requests every page number `i, ..., i+r-1`
in order, regardless of per-page failures. -/
theorem Main.fetchLoop_pages
    (pages : Nat → Nat → String → String → Except String (List Item))
    (limit : Nat) :
    ∀ (r i : Nat) (acc : List Item),
      (Main.fetchLoop pages limit i r acc).1 = pageList i r := by
  intro r
  induction r with
  | zero => intro i acc; rfl
  | succ r ih =>
      intro i acc
      cases hp : pages limit i "updated" "desc" with
      | error e =>
          simp only [Main.fetchLoop, hp, pageList]
          rw [ih]
      | ok items =>
          simp only [Main.fetchLoop, hp, pageList]
          rw [ih]

/-- `getTableRows` is exactly the AND-composition filter followed by row
construction, in input order. -/
theorem Main.getTableRows_eq_filter_map :
    ∀ (items : List Item) (filters : Main.walgotTableFilters),
      Main.getTableRows items filters
        = (items.filter (Main.passesActiveFilters filters)).map Main.mkRow := by
  intro items filters
  induction items with
  | nil => simp [Main.getTableRows]
  | cons it rest ih =>
      simp only [Main.getTableRows, List.filter_cons, Main.passesActiveFilters, bne, ih]
      split_ifs <;> simp_all
      cases hU : filters.Unread <;> cases hS : filters.Starred <;>
        cases hA : filters.Archived <;> simp_all

/-! Claim theorems. -/

/-- C1 (counterexample): the claim says any non-owner read bit (group read or
other read) triggers the security error and keeps the cache unused.  It fails
for a world-readable cache of mode `0o644`: the other-read bit (`1<<2`) is
set, yet the program's gate — Go parses `info.Mode()&1<<2` as
`(Mode()&1)<<2`, testing the other-execute bit — evaluates to zero, so no
security error is produced and the cached entries are read and delivered to
satisfy the sync. -/
theorem claim1_counterexample :
    Tui.requestWallabagEntries envWorldReadable 10 55 "created" "desc"
        = ⟨.entitiesMsg [mkTestItem 7 0 0], [], false, false⟩
      ∧ 0o644 &&& (1 <<< 2) ≠ 0
      ∧ isErrorMsg (Tui.requestWallabagEntries envWorldReadable 10 55 "created" "desc").msg
          = false := by
  refine ⟨by rfl, by decide, by rfl⟩

/-- C1 (amended): the permission gate of the sync — `info.Mode()&1<<2`,
which Go parses as `(Mode()&1)<<2` — fires exactly when the cache file's
other-execute bit is set: then the synchronizer produces the security error
message, requests no page, and neither opens nor writes the cache, the cache
contents staying unread and unused.  No read permission bit (group or other)
triggers the gate, so a cache file with group- or world-read permission and
no other-execute bit is read and used. -/
theorem claim1_amended (env : Tui.SyncEnv) (nbArticles nbPer : Nat)
    (sortField sortOrder : String) (info : Tui.FileInfo)
    (hstat : env.statResult = some info)
    (hexec : info.mode &&& 1 ≠ 0) :
    Tui.requestWallabagEntries env nbArticles nbPer sortField sortOrder
      = ⟨.errorMsg "Error:\n couldn't read cache file for security reasons",
          [], false, false⟩ := by
  have hmod : info.mode % 2 ≠ 0 := by rwa [Nat.and_one_is_mod] at hexec
  have hgate : (info.mode % 2) <<< 2 ≠ 0 := by
    rw [Nat.shiftLeft_eq]
    exact Nat.mul_ne_zero hmod (by decide)
  unfold Tui.requestWallabagEntries Tui.cachePhase
  rw [hstat]
  simp [hgate]

/-- C1 (witness): the amended theorem applied to a cache file of mode
`0o601` (owner-only read, other-execute set): the security error fires. -/
theorem claim1_witness :
    Tui.requestWallabagEntries envWorldExecutable 10 55 "created" "desc"
      = ⟨.errorMsg "Error:\n couldn't read cache file for security reasons",
          [], false, false⟩ :=
  claim1_amended envWorldExecutable 10 55 "created" "desc" ⟨0o601⟩ rfl (by decide)

/-- C10 (confirmed): whenever the cache file exists and its contents fail to
gob-decode, `requestWallabagEntries` produces a single error message,
requests no remote page, and never opens or writes the cache file: when the
program's permission gate passes (other-execute bit clear, as in the
standard owner-only mode `0o600`) the message is the cache-load error; when
the other-execute bit is set the gate's security error fires first — either
way a corrupt cache blocks the sync instead of falling back to the remote
protocol. -/
theorem claim10_ok (env : Tui.SyncEnv) (nbArticles nbPer : Nat)
    (sortField sortOrder : String) (info : Tui.FileInfo) (e : String)
    (hstat : env.statResult = some info)
    (hread : env.readResult = some (.error e)) :
    (info.mode &&& 1 = 0 →
        Tui.requestWallabagEntries env nbArticles nbPer sortField sortOrder
          = ⟨.errorMsg "Error:\n couldn't load the entries from cache",
              [], false, false⟩)
      ∧ (info.mode &&& 1 ≠ 0 →
          Tui.requestWallabagEntries env nbArticles nbPer sortField sortOrder
            = ⟨.errorMsg "Error:\n couldn't read cache file for security reasons",
                [], false, false⟩)
      ∧ isErrorMsg (Tui.requestWallabagEntries env nbArticles nbPer sortField sortOrder).msg
          = true
      ∧ (Tui.requestWallabagEntries env nbArticles nbPer sortField sortOrder).pagesRequested
          = []
      ∧ (Tui.requestWallabagEntries env nbArticles nbPer sortField sortOrder).cacheOpened
          = false
      ∧ (Tui.requestWallabagEntries env nbArticles nbPer sortField sortOrder).cacheWritten
          = false := by
  by_cases hm : info.mode &&& 1 = 0
  · have hmod : info.mode % 2 = 0 := by rwa [Nat.and_one_is_mod] at hm
    have heq : Tui.requestWallabagEntries env nbArticles nbPer sortField sortOrder
        = ⟨.errorMsg "Error:\n couldn't load the entries from cache",
            [], false, false⟩ := by
      unfold Tui.requestWallabagEntries Tui.cachePhase
      rw [hstat, hread]
      simp [hmod]
    refine ⟨fun _ => heq, fun h => absurd hm h, ?_, ?_, ?_, ?_⟩ <;> simp [heq, isErrorMsg]
  · have hmod : info.mode % 2 ≠ 0 := by rwa [Nat.and_one_is_mod] at hm
    have hgate : (info.mode % 2) <<< 2 ≠ 0 := by
      rw [Nat.shiftLeft_eq]
      exact Nat.mul_ne_zero hmod (by decide)
    have heq : Tui.requestWallabagEntries env nbArticles nbPer sortField sortOrder
        = ⟨.errorMsg "Error:\n couldn't read cache file for security reasons",
            [], false, false⟩ := by
      unfold Tui.requestWallabagEntries Tui.cachePhase
      rw [hstat]
      simp [hgate]
    refine ⟨fun h => absurd h hm, fun _ => heq, ?_, ?_, ?_, ?_⟩ <;> simp [heq, isErrorMsg]

/-- C10 (witness): the theorem applied to a cache file of the standard
owner-only mode `0o600` with corrupt contents: the cache-load error. -/
theorem claim10_witness :
    Tui.requestWallabagEntries envCorruptCache 10 55 "created" "desc"
      = ⟨.errorMsg "Error:\n couldn't load the entries from cache",
          [], false, false⟩ :=
  (claim10_ok envCorruptCache 10 55 "created" "desc" ⟨0o600⟩ "gob: corrupt"
    rfl rfl).1 (by decide)

/-- C5 (counterexample): the claim says no error of any kind terminates the
process.  In `src/main.go` lines 289-298, a failed count request makes
`requestWallabagNbEntries` call `os.Exit(1)`: the process terminates without
any user quit. -/
theorem claim5_counterexample :
    Main.requestWallabagNbEntries (.error "connection refused")
      = .exited 1 := by
  rfl

/-- C5 (amended): in the tui version (part_000 lines 158-170) a failed count
request surfaces the count error message and the process keeps running — the
dispatcher routes the resulting message to the dialog updater, never to a
quit.  In the `src/main.go` version, however, a failed count request calls
`os.Exit(1)`, terminating the process, so an error other than an explicit
user quit can end the process. -/
theorem claim5_amended :
    (∀ e : String,
        Tui.requestWallabagNbEntries (.error e)
          = .errorMsg "Error:\n couldn't retrieve the total number of entries from wallabag API")
    ∧ (∀ (m : Tui.model) (e : String),
        (Tui.updateModel m (Tui.requestWallabagNbEntries (.error e))).2
          = .dialogView)
    ∧ ∀ e : String, Main.requestWallabagNbEntries (.error e) = .exited 1 := by
  refine ⟨fun e => rfl, fun m e => ?_, fun e => rfl⟩
  simp [Tui.requestWallabagNbEntries, Tui.updateModel, Tui.dispatch]

/-- C2 (counterexample): the claim also covers the synchronizer of
`src/main.go` (lines 328-355), and fails there.  With three pages required
(N = 120, P = 55) and page 2 failing, `src/main.go`'s `requestWallabagEntries`
does not abort: the failure is only logged, the loop continues, and the
entries of pages 1 and 3 are delivered as a success message — no error
message is produced and the Model's Entries are replaced by the partial
accumulation. -/
theorem claim2_counterexample :
    Main.requestWallabagEntries mainPagesPage2Fails 120
        = .entitiesMsg [mkTestItem 1 0 0, mkTestItem 3 0 0]
      ∧ isErrorMsg (Main.requestWallabagEntries mainPagesPage2Fails 120) = false := by
  exact ⟨by rfl, by rfl⟩

/-- C2 (amended): for the tui synchronizer (part_000 lines 213-224) the claim
holds.  If the cache phase yields no entries (so the paginated fetch is
reached), every page before `i0` succeeds and page `i0` (with
`1 ≤ i0 ≤ calls`) fails, then the sync aborts: the one message produced is
the fetch error message, the pages requested are exactly `1..i0`, the cache
file is never opened (hence not truncated) nor written, and delivering the
error message to the dispatcher leaves the Model's Entries unchanged. -/
theorem claim2_amended (env : Tui.SyncEnv) (nbArticles nbPer i0 : Nat)
    (sortField sortOrder : String) (e : String)
    (hcache : Tui.cachePhase env = .ok [])
    (h1 : 1 ≤ i0) (h2 : i0 ≤ Tui.getRequiredNbAPICalls nbArticles nbPer)
    (hok : ∀ j, 1 ≤ j → j < i0 →
      ∃ its, env.pages nbPer j sortField sortOrder = .ok its)
    (herr : env.pages nbPer i0 sortField sortOrder = .error e) :
    (Tui.requestWallabagEntries env nbArticles nbPer sortField sortOrder).msg
        = .errorMsg "Error:\n couldn't retrieve the entries from wallabag API"
      ∧ (Tui.requestWallabagEntries env nbArticles nbPer sortField sortOrder).pagesRequested
          = pageList 1 i0
      ∧ (Tui.requestWallabagEntries env nbArticles nbPer sortField sortOrder).cacheOpened
          = false
      ∧ (Tui.requestWallabagEntries env nbArticles nbPer sortField sortOrder).cacheWritten
          = false
      ∧ ∀ (m : Tui.model) (s : String),
          (Tui.updateModel m (.errorMsg s)).1.Entries = m.Entries := by
  have hfetch :
      Tui.fetchFrom (fun i => env.pages nbPer i sortField sortOrder) 1
          (Tui.getRequiredNbAPICalls nbArticles nbPer) []
        = (pageList 1 ((i0 - 1) + 1), .error e) := by
    refine Tui.fetchFrom_err (fun i => env.pages nbPer i sortField sortOrder) e
      (i0 - 1) (Tui.getRequiredNbAPICalls nbArticles nbPer) 1 [] (by omega) ?_ ?_
    · intro j hj
      obtain ⟨its, hits⟩ := hok (1 + j) (by omega) (by omega)
      exact ⟨its, hits⟩
    · rw [show 1 + (i0 - 1) = i0 by omega]
      exact herr
  rw [show (i0 - 1) + 1 = i0 by omega] at hfetch
  unfold Tui.requestWallabagEntries
  rw [hcache]
  simp only [List.length_nil, gt_iff_lt, Nat.lt_irrefl, if_false, hfetch]
  exact ⟨trivial, trivial, trivial, trivial,
    fun m s => Tui.updateModel_errorMsg_entries m s⟩

/-- C2 (witness): the amended theorem applied to a concrete environment with
no cache, N = 120, P = 55 (3 calls) and page 2 failing. -/
theorem claim2_witness :
    (Tui.requestWallabagEntries envPage2Fails 120 55 "created" "desc").msg
        = .errorMsg "Error:\n couldn't retrieve the entries from wallabag API"
      ∧ (Tui.requestWallabagEntries envPage2Fails 120 55 "created" "desc").pagesRequested
          = pageList 1 2
      ∧ (Tui.requestWallabagEntries envPage2Fails 120 55 "created" "desc").cacheOpened
          = false
      ∧ (Tui.updateModel modelPlainList
          (.errorMsg "Error:\n couldn't retrieve the entries from wallabag API")).1.Entries
          = modelPlainList.Entries := by
  have h := claim2_amended envPage2Fails 120 55 2 "created" "desc" "boom"
    rfl (by decide) (by decide)
    (fun j hj1 hj2 => ⟨[], by
      have hj : j = 1 := by omega
      subst hj
      rfl⟩)
    rfl
  exact ⟨h.1, h.2.1, h.2.2.1, h.2.2.2.2 modelPlainList _⟩

/-- C3 (counterexample): the claim quantifies over every total `N ≥ 0` and
asserts exactly `ceil(N / P)` sequential page requests.  It fails on the
synchronizer of `src/main.go` (lines 311-338, cited by the claim): the inline
call-count computation floors the count at one (`nbCalls := 1` is only
raised, never lowered), so at `N = 0`, `P = 55` the loop issues one page
request — `Main.pagesRequested` is `[1]` — although `ceil(0 / 55) = 0`
requests are required. -/
theorem claim3_counterexample :
    getRequiredNbAPICalls 0 55 = 1
      ∧ ceilDiv 0 55 = 0
      ∧ Main.pagesRequested (fun _ _ _ _ => .ok []) 0 = [1]
      ∧ pageList 1 (ceilDiv 0 55) = [] := by
  exact ⟨by decide, by decide, by rfl, by decide⟩

/-- C3 (amended): for every total `N ≥ 1` and page size `P > 0` the call
count equals `ceil(N / P)` — both for `src/main.go`'s inline computation and
for the tui helper (absent from `src/`, modelled from the spec as exactly
`ceil`) — and the tui synchronizer then issues exactly those page requests
numbered `1..calls`, concatenating the results in arrival order (given that
the cache phase yields nothing and every page succeeds); in particular 3
calls for N = 120, P = 55 and 1 call for N = 55, P = 55.  For `N = 0`,
however, `src/main.go` floors the count at 1 and issues one request. -/
theorem claim3_amended (nbArticles nbPer : Nat) (hP : 0 < nbPer) (hN : 0 < nbArticles) :
    getRequiredNbAPICalls nbArticles nbPer = ceilDiv nbArticles nbPer
      ∧ Tui.getRequiredNbAPICalls nbArticles nbPer = ceilDiv nbArticles nbPer
      ∧ getRequiredNbAPICalls 120 55 = 3
      ∧ getRequiredNbAPICalls 55 55 = 1
      ∧ getRequiredNbAPICalls 0 55 = 1
      ∧ (∀ pages, Main.pagesRequested pages nbArticles
          = pageList 1 (getRequiredNbAPICalls nbArticles 55))
      ∧ ∀ (env : Tui.SyncEnv) (sortField sortOrder : String)
          (pItems : Nat → List Item),
          Tui.cachePhase env = .ok [] →
          (∀ i, env.pages nbPer i sortField sortOrder = .ok (pItems i)) →
          (Tui.requestWallabagEntries env nbArticles nbPer sortField sortOrder).pagesRequested
              = pageList 1 (ceilDiv nbArticles nbPer)
            ∧ (env.openResult = .ok () → env.encodeResult = .ok () →
                (Tui.requestWallabagEntries env nbArticles nbPer sortField sortOrder).msg
                  = .entitiesMsg (concatPages pItems 1 (ceilDiv nbArticles nbPer))) := by
  have hcalls := getRequiredNbAPICalls_eq_ceilDiv nbArticles nbPer hP hN
  have hTcalls : Tui.getRequiredNbAPICalls nbArticles nbPer = ceilDiv nbArticles nbPer := rfl
  refine ⟨hcalls, hTcalls, by decide, by decide, by decide,
    fun pages => Main.fetchLoop_pages pages 55 (getRequiredNbAPICalls nbArticles 55) 1 [], ?_⟩
  intro env sortField sortOrder pItems hcache hok
  have hfetch :
      Tui.fetchFrom (fun i => env.pages nbPer i sortField sortOrder) 1
          (Tui.getRequiredNbAPICalls nbArticles nbPer) []
        = (pageList 1 (Tui.getRequiredNbAPICalls nbArticles nbPer),
           .ok ([] ++ concatPages pItems 1 (Tui.getRequiredNbAPICalls nbArticles nbPer))) :=
    Tui.fetchFrom_ok (fun i => env.pages nbPer i sortField sortOrder) pItems
      (fun j => hok j) (Tui.getRequiredNbAPICalls nbArticles nbPer) 1 []
  rw [List.nil_append] at hfetch
  rw [hTcalls] at hfetch
  unfold Tui.requestWallabagEntries
  rw [hcache]
  simp only [List.length_nil, gt_iff_lt, Nat.lt_irrefl, if_false, hTcalls, hfetch]
  constructor
  · cases hOpen : env.openResult with
    | error e => simp
    | ok u => cases hEnc : env.encodeResult with
      | error e => simp
      | ok u2 => simp
  · intro hOpen hEnc
    rw [hOpen, hEnc]

/-- C3 (witness): the amended theorem applied at N = 120, P = 55 with an
all-success environment: pages 1, 2, 3 are requested in order. -/
theorem claim3_witness :
    (Tui.requestWallabagEntries envAllOk 120 55 "created" "desc").pagesRequested
        = pageList 1 (ceilDiv 120 55)
      ∧ (Tui.requestWallabagEntries envAllOk 120 55 "created" "desc").msg
          = .entitiesMsg (concatPages (fun _ => []) 1 (ceilDiv 120 55))
      ∧ pageList 1 (ceilDiv 120 55) = [1, 2, 3] := by
  have h := (claim3_amended 120 55 (by decide) (by decide)).2.2.2.2.2.2
    envAllOk "created" "desc" (fun _ => []) rfl (fun i => rfl)
  exact ⟨h.1, h.2 rfl rfl, by decide⟩

/-- C4 (counterexample): the claim says that when every page succeeds but the
cache write fails, the fetched entries are still delivered as the new
Entries.  In the code (part_000 lines 230-245) the command instead returns
only the error message: with one successful page carrying one entry and
`os.OpenFile` failing, the produced message is the open error — not an
entities message — and feeding it to the dispatcher leaves the Model's
Entries empty, so the fetched entry is discarded. -/
theorem claim4_counterexample :
    Tui.requestWallabagEntries envOpenFails 1 55 "created" "desc"
        = ⟨.errorMsg "Error:\n couldn't open file to cache Wallabag entries: /tmp/walgot-cache.dat: disk full",
            [1], true, false⟩
      ∧ (Tui.updateModel modelPlainList
          (Tui.requestWallabagEntries envOpenFails 1 55 "created" "desc").msg).1.Entries
          = []
      ∧ ([] : List Item) ≠ [mkTestItem 7 0 0] := by
  exact ⟨by rfl, by rfl, by decide⟩

/-- C4 (amended): if the cache phase yields nothing, every page request
succeeds, and then the cache write fails (the open fails, or the open
succeeds and the encode fails), an error message is surfaced — but the
freshly fetched entry set is discarded, not delivered: the command's one
message is an error message, the cache is not successfully written, and
dispatching that message leaves the Model's Entries unchanged. -/
theorem claim4_amended (env : Tui.SyncEnv) (nbArticles nbPer : Nat)
    (sortField sortOrder : String) (pItems : Nat → List Item)
    (hcache : Tui.cachePhase env = .ok [])
    (hok : ∀ i, env.pages nbPer i sortField sortOrder = .ok (pItems i))
    (hfail : (∃ e, env.openResult = .error e)
      ∨ (env.openResult = .ok () ∧ ∃ e, env.encodeResult = .error e)) :
    isErrorMsg (Tui.requestWallabagEntries env nbArticles nbPer sortField sortOrder).msg
        = true
      ∧ (Tui.requestWallabagEntries env nbArticles nbPer sortField sortOrder).cacheWritten
          = false
      ∧ ∀ (m : Tui.model) (s : String),
          (Tui.updateModel m (.errorMsg s)).1.Entries = m.Entries := by
  have hfetch :
      Tui.fetchFrom (fun i => env.pages nbPer i sortField sortOrder) 1
          (Tui.getRequiredNbAPICalls nbArticles nbPer) []
        = (pageList 1 (Tui.getRequiredNbAPICalls nbArticles nbPer),
           .ok ([] ++ concatPages pItems 1 (Tui.getRequiredNbAPICalls nbArticles nbPer))) :=
    Tui.fetchFrom_ok (fun i => env.pages nbPer i sortField sortOrder) pItems
      (fun j => hok j) (Tui.getRequiredNbAPICalls nbArticles nbPer) 1 []
  unfold Tui.requestWallabagEntries
  rw [hcache]
  simp only [List.length_nil, gt_iff_lt, Nat.lt_irrefl, if_false, hfetch]
  rcases hfail with ⟨e, hOpen⟩ | ⟨hOpen, e, hEnc⟩
  · rw [hOpen]
    exact ⟨rfl, rfl, fun m s => Tui.updateModel_errorMsg_entries m s⟩
  · rw [hOpen, hEnc]
    exact ⟨rfl, rfl, fun m s => Tui.updateModel_errorMsg_entries m s⟩

/-- C4 (witness): the amended theorem applied to a concrete environment in
which the one page succeeds and the cache open fails. -/
theorem claim4_witness :
    isErrorMsg (Tui.requestWallabagEntries envOpenFails 1 55 "created" "desc").msg
        = true
      ∧ (Tui.requestWallabagEntries envOpenFails 1 55 "created" "desc").cacheWritten
          = false
      ∧ (Tui.updateModel modelPlainList (.errorMsg "x")).1.Entries
          = modelPlainList.Entries := by
  have h := claim4_amended envOpenFails 1 55 "created" "desc"
    (fun _ => [mkTestItem 7 0 0]) rfl (fun i => rfl)
    (Or.inl ⟨"disk full", rfl⟩)
  exact ⟨h.1, h.2.1, h.2.2 modelPlainList "x"⟩

/-- C6 (counterexample): the claim says that for every model state and every
message exactly one view-specific updater handles the message, and that with
a non-empty dialog message and `SelectedID > 0` the dialog updater is the one
invoked.  An entity-update-success message refutes it: `model.Update`
(part_000 lines 356-363) returns directly after patching the entry —
scheduling the delayed clear tick — so no view-specific updater runs even
though the dialog message is non-empty and `SelectedID > 0`. -/
theorem claim6_counterexample :
    (Tui.updateModel modelDialogAndSelection (.entityUpdateMsg (mkTestItem 9 0 0))).2
        = .entityUpdateTick
      ∧ Tui.isViewUpdater
          (Tui.updateModel modelDialogAndSelection (.entityUpdateMsg (mkTestItem 9 0 0))).2
          = false
      ∧ modelDialogAndSelection.Dialog.Message ≠ ""
      ∧ modelDialogAndSelection.SelectedID > 0 := by
  exact ⟨by rfl, by rfl, by decide, by decide⟩

/-- C6 (amended): for every model state and every message that is not
consumed by an earlier branch of `model.Update` — the `ctrl+c` quit key, the
`?` help-toggle key while not reloading, and the entity-update-success
message, which returns directly with the delayed clear command — exactly one
of the four view-specific updaters handles the message, chosen by fixed
precedence on the (possibly just-mutated) state: dialog if `Dialog.Message`
is non-empty, else help if `CurrentView = "help"`, else detail if
`SelectedID > 0`, else list.  In particular a state with a non-empty dialog
message is always handled by the dialog updater, regardless of
`SelectedID`.  (Error messages are assumed non-empty, as every error message
in the source is.) -/
theorem claim6_amended (m : Tui.model) (msg : TeaMsg)
    (hkey : ∀ k, msg = .keyMsg k → k ≠ "ctrl+c" ∧ (k = "?" → m.Reloading = true))
    (hupd : ∀ e, msg ≠ .entityUpdateMsg e)
    (herr : ∀ s, msg = .errorMsg s → s ≠ "") :
    Tui.isViewUpdater (Tui.updateModel m msg).2 = true
      ∧ ((Tui.updateModel m msg).2 = .dialogView
          ↔ (Tui.updateModel m msg).1.Dialog.Message ≠ "")
      ∧ ((Tui.updateModel m msg).2 = .helpView
          ↔ (Tui.updateModel m msg).1.Dialog.Message = ""
            ∧ (Tui.updateModel m msg).1.CurrentView = "help")
      ∧ ((Tui.updateModel m msg).2 = .detailView
          ↔ (Tui.updateModel m msg).1.Dialog.Message = ""
            ∧ (Tui.updateModel m msg).1.CurrentView ≠ "help"
            ∧ (Tui.updateModel m msg).1.SelectedID > 0)
      ∧ ((Tui.updateModel m msg).2 = .listView
          ↔ (Tui.updateModel m msg).1.Dialog.Message = ""
            ∧ (Tui.updateModel m msg).1.CurrentView ≠ "help"
            ∧ ¬ (Tui.updateModel m msg).1.SelectedID > 0)
      ∧ (m.Dialog.Message ≠ "" → (Tui.updateModel m msg).2 = .dialogView) := by
  have hdisp : ∀ m' : Tui.model,
      Tui.isViewUpdater (Tui.dispatch m').2 = true
        ∧ ((Tui.dispatch m').2 = .dialogView ↔ m'.Dialog.Message ≠ "")
        ∧ ((Tui.dispatch m').2 = .helpView
            ↔ m'.Dialog.Message = "" ∧ m'.CurrentView = "help")
        ∧ ((Tui.dispatch m').2 = .detailView
            ↔ m'.Dialog.Message = "" ∧ m'.CurrentView ≠ "help" ∧ m'.SelectedID > 0)
        ∧ ((Tui.dispatch m').2 = .listView
            ↔ m'.Dialog.Message = "" ∧ m'.CurrentView ≠ "help" ∧ ¬ m'.SelectedID > 0)
        ∧ (Tui.dispatch m').1 = m' :=
    fun m' => by
      have h := Tui.dispatch_spec m'
      exact ⟨h.2.1, h.2.2.1, h.2.2.2.1, h.2.2.2.2.1, h.2.2.2.2.2, h.1⟩
  cases msg with
  | keyMsg k =>
      obtain ⟨hk1, hk2⟩ := hkey k rfl
      have hnot : ¬ (k = "?" ∧ m.Reloading = false) := by
        rintro ⟨hq, hr⟩
        rw [hk2 hq] at hr
        exact absurd hr (by decide)
      simp only [Tui.updateModel, if_neg hk1, if_neg hnot]
      obtain ⟨d1, d2, d3, d4, d5, d6⟩ := hdisp m
      rw [d6]
      exact ⟨d1, d2, d3, d4, d5, fun hne => d2.mpr hne⟩
  | errorMsg s =>
      have hs := herr s rfl
      simp only [Tui.updateModel]
      obtain ⟨d1, d2, d3, d4, d5, d6⟩ :=
        hdisp { m with Reloading := false, Dialog := { m.Dialog with Message := s } }
      rw [d6]
      exact ⟨d1, d2, d3, d4, d5, fun _ => d2.mpr hs⟩
  | entityUpdateMsg e => exact absurd rfl (hupd e)
  | clearMsg b =>
      simp only [Tui.updateModel]
      obtain ⟨d1, d2, d3, d4, d5, d6⟩ :=
        hdisp (if b = true then { m with UpdateMessage := "" } else m)
      rw [d6]
      exact ⟨d1, d2, d3, d4, d5, fun hne => d2.mpr (by cases b <;> simpa)⟩
  | selectRowMsg v =>
      simp only [Tui.updateModel]
      obtain ⟨d1, d2, d3, d4, d5, d6⟩ := hdisp { m with SelectedID := v }
      rw [d6]
      exact ⟨d1, d2, d3, d4, d5, fun hne => d2.mpr hne⟩
  | entitiesMsg entries =>
      simp only [Tui.updateModel]
      obtain ⟨d1, d2, d3, d4, d5, d6⟩ := hdisp m
      rw [d6]
      exact ⟨d1, d2, d3, d4, d5, fun hne => d2.mpr hne⟩
  | nbEntitiesMsg n =>
      simp only [Tui.updateModel]
      obtain ⟨d1, d2, d3, d4, d5, d6⟩ := hdisp m
      rw [d6]
      exact ⟨d1, d2, d3, d4, d5, fun hne => d2.mpr hne⟩
  | spinnerTickMsg =>
      simp only [Tui.updateModel]
      obtain ⟨d1, d2, d3, d4, d5, d6⟩ := hdisp m
      rw [d6]
      exact ⟨d1, d2, d3, d4, d5, fun hne => d2.mpr hne⟩

/-- C6 (witness): the amended theorem applied to a dialog-over-selection
state and a clear message: the dialog updater handles it. -/
theorem claim6_witness :
    Tui.isViewUpdater
        (Tui.updateModel modelDialogAndSelection (.clearMsg true)).2 = true
      ∧ (Tui.updateModel modelDialogAndSelection (.clearMsg true)).2
          = .dialogView := by
  have h := claim6_amended modelDialogAndSelection (.clearMsg true)
    (fun k hk => by cases hk) (fun e he => by cases he) (fun s hs => by cases hs)
  exact ⟨h.1, h.2.2.2.2.2 (by decide)⟩

/-- C7 (confirmed): from any filter state in which `Unread` and `Archived`
are not both set, every filter-toggle keeps them not both set; toggling
unread on clears archived, toggling archived on clears unread, and toggling
starred changes neither of the other two flags. -/
theorem claim7_ok (f : Main.walgotTableFilters) (msg : String)
    (h : ¬ (f.Unread = true ∧ f.Archived = true)) :
    ¬ ((Main.listViewFiltersUpdate msg f).Unread = true
        ∧ (Main.listViewFiltersUpdate msg f).Archived = true)
      ∧ (Main.listViewFiltersUpdate "u" f).Unread = !f.Unread
      ∧ ((Main.listViewFiltersUpdate "u" f).Unread = true
          → (Main.listViewFiltersUpdate "u" f).Archived = false)
      ∧ (Main.listViewFiltersUpdate "a" f).Archived = !f.Archived
      ∧ ((Main.listViewFiltersUpdate "a" f).Archived = true
          → (Main.listViewFiltersUpdate "a" f).Unread = false)
      ∧ (Main.listViewFiltersUpdate "s" f).Unread = f.Unread
      ∧ (Main.listViewFiltersUpdate "s" f).Archived = f.Archived
      ∧ (Main.listViewFiltersUpdate "s" f).Starred = !f.Starred := by
  obtain ⟨A, S, U⟩ := f
  refine ⟨?_, ?_⟩
  · simp only [Main.listViewFiltersUpdate]
    split_ifs <;> simp_all
  · cases A <;> cases S <;> cases U <;> simp_all <;> decide

/-- C7 (witness): the theorem applied to the filter state with only
`Archived` set and the unread-toggle key. -/
theorem claim7_witness :
    ¬ ((Main.listViewFiltersUpdate "u" filterArchivedOnly).Unread = true
        ∧ (Main.listViewFiltersUpdate "u" filterArchivedOnly).Archived = true) :=
  (claim7_ok filterArchivedOnly "u" (by decide)).1

/-- C8 (confirmed): the rows produced by `getTableRows` are exactly the
entries passing the AND-composition of the active filters (unread demands
`archived = 0`, starred demands `starred = 1`, archived demands
`archived = 1`), turned into rows in input order; on the spec's example
entries `{id:1, archived:0, starred:1}` and `{id:2, archived:1, starred:0}`,
the unread filter yields only id 1, the starred filter only id 1, and the
archived filter only id 2. -/
theorem claim8_ok :
    (∀ (items : List Item) (filters : Main.walgotTableFilters),
        Main.getTableRows items filters
          = (items.filter (Main.passesActiveFilters filters)).map Main.mkRow)
      ∧ (Main.getTableRows [itemE1, itemE2] filterUnreadOnly).map Main.TableRow.id = ["1"]
      ∧ (Main.getTableRows [itemE1, itemE2] filterStarredOnly).map Main.TableRow.id = ["1"]
      ∧ (Main.getTableRows [itemE1, itemE2] filterArchivedOnly).map Main.TableRow.id = ["2"] := by
  exact ⟨Main.getTableRows_eq_filter_map, by rfl, by rfl, by rfl⟩

/-- C9 (counterexample): the claim says the visible rows are sorted by the
selected field and direction with ties broken by entry ID ascending.  Take
two entries identical in every field except `ID` — every sort key ties on
them — listed with ID 2 before ID 1 and no filter active: the claim then
requires the rows in order `1, 2`, but `getTableRows` performs no sort and
emits them in input order `2, 1`. -/
theorem claim9_counterexample :
    (Main.getTableRows [itemTieFirst, itemTieSecond] filterNone).map Main.TableRow.id
        = ["2", "1"]
      ∧ (Main.getTableRows [itemTieFirst, itemTieSecond] filterNone).map Main.TableRow.id
          ≠ ["1", "2"] := by
  exact ⟨by rfl, by decide⟩

/-- C9 (amended): the visible rows are not sorted locally at all —
`getTableRows` preserves the input order of the entry set, so the row IDs are
exactly the IDs of the filtered entries in their original order (no entry-ID
tiebreak); the selected sort field and direction only parameterize the remote
fetch that produced the entry set. -/
theorem claim9_amended :
    ∀ (items : List Item) (filters : Main.walgotTableFilters),
      (Main.getTableRows items filters).map Main.TableRow.id
        = (items.filter (Main.passesActiveFilters filters)).map
            (fun it => toString it.ID) := by
  intro items filters
  rw [Main.getTableRows_eq_filter_map, List.map_map]
  rfl
